import Mathlib

/-!
Shallow embedding of `src/main.py` (washer/dryer "laundry is done" monitor).

The program keeps a set of module-level globals:
  sensitivity, idle_counter, sample_secs, max_idle_periods, command,
  config_done, is_active, accelerometer_changes, notification, last_readings
mutated by three pieces of code:
  * `update_readings_thread` — one iteration of its `while True` body is
    `samplerCycle` below (the sensor read is passed in as an `Except`,
    `Except.error` standing for `accelerometer.get_values()` raising);
  * `handle_incoming_message` — `handleConfigMessage` for the config topic
    (the JSON parse outcome passed in as `Option ConfigMsg`, `none` for the
    `json.loads` / attribute failure caught by the `except` branch) and
    `handleCommandMessage` for the command topic;
  * the `main` coroutine — one pass of its reconciliation loop body is
    `reconcilerTick` (publishes are returned as a list).
Python integers are embedded as `Int`; `idle_counter` as `Nat` since the
program only ever assigns `0` to it or increments it.  Python truthiness of
`command` / `notification` (`None` and `""` falsy) and of
`accelerometer_changes` (`None` falsy, any 3-tuple truthy) is spelled out
at each `if`.
-/

namespace LaundryIsDone

/-- The three gyro axes of one `accelerometer.get_values()` result
(`GyX`, `GyY`, `GyZ`); the other dict entries are never read. -/
structure Reading where
  gyX : Int
  gyY : Int
  gyZ : Int
deriving DecidableEq

/-- One `client.publish(topic, payload, retain, 0)` call. -/
structure Publish where
  topic : String
  payload : String
  retain : Bool
deriving DecidableEq

/-- The module-level globals of `main.py`. -/
structure State where
  sensitivity : Int
  idle_counter : Nat
  sample_secs : Int
  max_idle_periods : Int
  command : Option String
  config_done : Bool
  is_active : Bool
  accelerometer_changes : Option (Int × Int × Int)
  notification : Option String
  last_readings : Reading
deriving DecidableEq

/-- Topic `esp32/washer/active/1`. -/
def ACTIVE_TOPIC : String := "esp32/washer/active/1"

/-- Topic `esp32/washer/readings/1`. -/
def READINGS_TOPIC : String := "esp32/washer/readings/1"

/-- Topic `esp32/washer/notify`. -/
def NOTIFY_TOPIC : String := "esp32/washer/notify"

/-- The globals as initialized at module load (lines 20-46; the initial
`accelerometer.get_values()` result is `r0`). -/
def initState (r0 : Reading) : State :=
  { sensitivity := 110
    idle_counter := 0
    sample_secs := 10
    max_idle_periods := 6
    command := none
    config_done := false
    is_active := false
    accelerometer_changes := none
    notification := none
    last_readings := r0 }

/-- One iteration of the `while True` body of `update_readings_thread`
(lines 51-70).  `read` is the outcome of `accelerometer.get_values()`,
which is only called when `is_active`; an exception there propagates (there
is no `try` in the function).  The returned `Bool` records whether the
`idle_counter >= max_idle_periods` staging branch (lines 65-68) ran. -/
def samplerCycle (s : State) (read : Except String Reading) :
    Except String (State × Bool) :=
  if s.is_active then
    match read with
    | Except.error e => Except.error e
    | Except.ok v =>
      let change_x : Int := |s.last_readings.gyX - v.gyX|
      let change_y : Int := |s.last_readings.gyY - v.gyY|
      let change_z : Int := |s.last_readings.gyZ - v.gyZ|
      let s1 : State :=
        { s with last_readings := v
                 accelerometer_changes := some (change_x, change_y, change_z) }
      let s2 : State :=
        if change_x + change_y + change_z > s.sensitivity then
          { s1 with idle_counter := 0 }
        else
          { s1 with idle_counter := s.idle_counter + 1 }
      if (s2.idle_counter : Int) ≥ s.max_idle_periods then
        Except.ok
          ({ s2 with command := some "off"
                     notification := some "We\x27re done!" }, true)
      else
        Except.ok (s2, false)
  else
    Except.ok (s, false)

/-- Running `update_readings_thread` over a list of successive read
outcomes, counting how many cycles executed the staging branch.  An
uncaught exception in a cycle terminates the thread, so it aborts the
whole run. -/
def runSampler : State → List (Except String Reading) → Except String (State × Nat)
  | s, [] => Except.ok (s, 0)
  | s, r :: rs =>
    match samplerCycle s r with
    | Except.error e => Except.error e
    | Except.ok (s1, fired) =>
      match runSampler s1 rs with
      | Except.error e => Except.error e
      | Except.ok (s2, n) => Except.ok (s2, (if fired then 1 else 0) + n)

/-- The state after one sampler cycle (the pre-state if the cycle raised:
the read precedes every assignment, so a raising cycle mutates nothing). -/
def cycleState (s : State) (r : Except String Reading) : State :=
  match samplerCycle s r with
  | Except.ok (s1, _) => s1
  | Except.error _ => s

/-- Whether one sampler cycle executed the staging branch (lines 65-68). -/
def cycleFired (s : State) (r : Except String Reading) : Bool :=
  match samplerCycle s r with
  | Except.ok (_, b) => b
  | Except.error _ => false

/-- The three optional fields of a parsed config JSON object, as read by
`config.get('sampleSecs'/'maxIdlePeriods'/'sensitivity', current)`. -/
structure ConfigMsg where
  sampleSecs : Option Int
  maxIdlePeriods : Option Int
  sensitivity : Option Int
deriving DecidableEq

/-- `handle_incoming_message` on the config topic (lines 77-91).  `parsed`
is the outcome of `json.loads` plus the `.get` attribute lookups: `none`
when the `try` block raised before any assignment (malformed JSON, or a
payload that is not an object), in which case the `except` branch leaves
every global untouched and `config_done` is not set. -/
def handleConfigMessage (s : State) (parsed : Option ConfigMsg) : State :=
  match parsed with
  | none => s
  | some config =>
    { s with sample_secs := config.sampleSecs.getD s.sample_secs
             max_idle_periods := config.maxIdlePeriods.getD s.max_idle_periods
             sensitivity := config.sensitivity.getD s.sensitivity
             config_done := true }

/-- `handle_incoming_message` on any non-config topic (lines 92-94): the
raw payload string is staged as the command, unconditionally. -/
def handleCommandMessage (s : State) (msg : String) : State :=
  { s with command := some msg }

/-- ASCII lowering of one character, as Python's `str.lower` acts on the
ASCII range (the only range command strings use). -/
def lowerChar (c : Char) : Char :=
  if 'A' ≤ c ∧ c ≤ 'Z' then Char.ofNat (c.toNat + 32) else c

/-- `command.lower()`: Python's string lowering, embedded character-wise. -/
def strLower (s : String) : String :=
  ⟨s.data.map lowerChar⟩

/-- The `if command:` block of `main` (lines 123-129).  Python truthiness:
`None` and `""` are falsy, so an empty staged command is skipped (and not
cleared). -/
def drainCommand (s : State) : State × List Publish :=
  match s.command with
  | none => (s, [])
  | some c =>
    if c = "" then (s, [])
    else
      let active : Bool := strLower c == "on"
      let s1 : State := { s with is_active := active }
      let s2 : State :=
        if active then { s1 with idle_counter := 0, accelerometer_changes := none }
        else s1
      ({ s2 with command := none }, [⟨ACTIVE_TOPIC, c, true⟩])

/-- `str` of a Python 3-tuple of ints, as published on the readings topic. -/
def tupleStr (t : Int × Int × Int) : String :=
  "(" ++ toString t.1 ++ ", " ++ toString t.2.1 ++ ", " ++ toString t.2.2 ++ ")"

/-- The `if accelerometer_changes:` block of `main` (lines 130-132).  A
non-`None` 3-tuple is always truthy. -/
def drainReadings (s : State) : State × List Publish :=
  match s.accelerometer_changes with
  | none => (s, [])
  | some t =>
    ({ s with accelerometer_changes := none }, [⟨READINGS_TOPIC, tupleStr t, true⟩])

/-- The `if notification:` block of `main` (lines 133-135); published
without retain. -/
def drainNotify (s : State) : State × List Publish :=
  match s.notification with
  | none => (s, [])
  | some n =>
    if n = "" then (s, [])
    else ({ s with notification := none }, [⟨NOTIFY_TOPIC, n, false⟩])

/-- One pass of `main`'s loop body (lines 118-136).  While `config_done`
is false the inner `while not config_done` loop only sleeps, so the pass
touches nothing and publishes nothing; once it is true the three staged
fields are drained in order. -/
def reconcilerTick (s : State) : State × List Publish :=
  if s.config_done then
    let a := drainCommand s
    let b := drainReadings a.1
    let c := drainNotify b.1
    (c.1, a.2 ++ b.2 ++ c.2)
  else
    (s, [])

/-- A convenient baseline state: the module defaults with initial reading
`(0,0,0)`. -/
def baseState : State := initState ⟨0, 0, 0⟩

/-- Baseline state with monitoring active and configuration received. -/
def activeBase : State := { baseState with config_done := true, is_active := true }

/-- Active state with `max_idle_periods = 1`, used to exhibit repeated
staging across consecutive quiet cycles. -/
def c1State : State :=
  { baseState with config_done := true, is_active := true, max_idle_periods := 1 }

/-- Configured state holding an empty-string staged command (the result of
an empty command message payload). -/
def c4State : State := { baseState with config_done := true, command := some "" }

/-- Configured state holding the staged command `"ON"`, a nonzero counter
and staged readings. -/
def c4OnState : State :=
  { baseState with config_done := true, command := some "ON", idle_counter := 3,
                   accelerometer_changes := some (1, 2, 3) }

/-- Configured state with an empty staged command plus staged readings and
a staged notification. -/
def c9State : State :=
  { baseState with config_done := true, command := some "",
                   accelerometer_changes := some (1, 2, 3), notification := some "hi" }

/-- The §8 scenario start state: threshold 110, `max_idle_periods` 2,
active, last reading `(0,0,0)`. -/
def scenarioState : State :=
  { baseState with config_done := true, is_active := true, max_idle_periods := 2 }

/-- State after the scenario's first sample `(50,50,50)`. -/
def scenarioS1 : State := cycleState scenarioState (Except.ok ⟨50, 50, 50⟩)

/-- State after the scenario's second sample `(10,5,5)`. -/
def scenarioS2 : State := cycleState scenarioS1 (Except.ok ⟨10, 5, 5⟩)

/-- State after the scenario's third sample `(2,1,1)`. -/
def scenarioS3 : State := cycleState scenarioS2 (Except.ok ⟨2, 1, 1⟩)

/-! ### Helper lemmas about the three drain blocks -/

theorem drainReadings_fields (s : State) :
    (drainReadings s).1.is_active = s.is_active ∧
    (drainReadings s).1.command = s.command ∧
    (drainReadings s).1.idle_counter = s.idle_counter ∧
    (drainReadings s).1.notification = s.notification := by
  cases h : s.accelerometer_changes <;> simp [drainReadings, h]

theorem drainReadings_accel (s : State) :
    (drainReadings s).1.accelerometer_changes = none := by
  cases h : s.accelerometer_changes <;> simp [drainReadings, h]

theorem drainNotify_fields (s : State) :
    (drainNotify s).1.is_active = s.is_active ∧
    (drainNotify s).1.command = s.command ∧
    (drainNotify s).1.idle_counter = s.idle_counter ∧
    (drainNotify s).1.accelerometer_changes = s.accelerometer_changes := by
  cases h : s.notification with
  | none => simp [drainNotify, h]
  | some n =>
    by_cases hn : n = "" <;> simp [drainNotify, h, hn]

theorem drainReadings_topic (s : State) :
    ∀ p ∈ (drainReadings s).2, p.topic = READINGS_TOPIC := by
  intro p hp
  cases h : s.accelerometer_changes <;> simp [drainReadings, h] at hp
  rw [hp]

theorem drainNotify_topic (s : State) :
    ∀ p ∈ (drainNotify s).2, p.topic = NOTIFY_TOPIC := by
  intro p hp
  cases h : s.notification with
  | none => simp [drainNotify, h] at hp
  | some n =>
    by_cases hn : n = "" <;> simp [drainNotify, h, hn] at hp
    rw [hp]

theorem drainCommand_falsy (s : State) (hc : s.command = some "") :
    drainCommand s = (s, []) := by
  simp [drainCommand, hc]

theorem reconcilerTick_awaiting (s : State) (h : s.config_done = false) :
    reconcilerTick s = (s, []) := by
  simp [reconcilerTick, h]

theorem reconcilerTick_gated (s : State) (h : s.config_done = true) :
    reconcilerTick s =
      ((drainNotify (drainReadings (drainCommand s).1).1).1,
        (drainCommand s).2 ++ (drainReadings (drainCommand s).1).2 ++
          (drainNotify (drainReadings (drainCommand s).1).1).2) := by
  simp [reconcilerTick, h]

/-! ### Claim theorems -/

/-- C2: for every active sampler cycle, if the combined per-axis delta
(sum of absolute differences between current and previous raw readings) is
strictly greater than the sensitivity threshold, `idle_counter` is reset
to `0` on that cycle; otherwise it increments by exactly `1`. -/
theorem c2_classification (s : State) (v : Reading) (hact : s.is_active = true) :
    (|s.last_readings.gyX - v.gyX| + |s.last_readings.gyY - v.gyY| +
        |s.last_readings.gyZ - v.gyZ| > s.sensitivity →
      (cycleState s (Except.ok v)).idle_counter = 0) ∧
    (|s.last_readings.gyX - v.gyX| + |s.last_readings.gyY - v.gyY| +
        |s.last_readings.gyZ - v.gyZ| ≤ s.sensitivity →
      (cycleState s (Except.ok v)).idle_counter = s.idle_counter + 1) := by
  constructor <;> intro hδ
  · simp only [cycleState, samplerCycle, hact, eq_self_iff_true, if_true, if_pos hδ]
    split
    · rename_i s1 b heq
      split at heq <;>
        · injection heq with h
          injection h with h1 h2
          subst h1
          rfl
    · rename_i e heq
      split at heq <;> exact Except.noConfusion heq
  · simp only [cycleState, samplerCycle, hact, eq_self_iff_true, if_true,
      if_neg (show ¬(|s.last_readings.gyX - v.gyX| + |s.last_readings.gyY - v.gyY| +
        |s.last_readings.gyZ - v.gyZ| > s.sensitivity) by omega)]
    split
    · rename_i s1 b heq
      split at heq <;>
        · injection heq with h
          injection h with h1 h2
          subst h1
          rfl
    · rename_i e heq
      split at heq <;> exact Except.noConfusion heq

/-- C2 witness: delta `200 > 110` at the active baseline resets the
counter; delta `3 ≤ 110` increments it. -/
theorem c2_classification_witness :
    ((|activeBase.last_readings.gyX - (200 : Int)| +
        |activeBase.last_readings.gyY - (0 : Int)| +
        |activeBase.last_readings.gyZ - (0 : Int)| > activeBase.sensitivity →
      (cycleState activeBase (Except.ok ⟨200, 0, 0⟩)).idle_counter = 0) ∧
    (|activeBase.last_readings.gyX - (200 : Int)| +
        |activeBase.last_readings.gyY - (0 : Int)| +
        |activeBase.last_readings.gyZ - (0 : Int)| ≤ activeBase.sensitivity →
      (cycleState activeBase (Except.ok ⟨200, 0, 0⟩)).idle_counter =
        activeBase.idle_counter + 1)) :=
  c2_classification activeBase ⟨200, 0, 0⟩ rfl

/-- C3 counterexample: a failing sensor read while active does NOT let the
loop continue at the next period — there is no `try` in
`update_readings_thread`, so the exception propagates and the thread dies;
the subsequent read in the list is never processed. -/
theorem c3_counterexample :
    runSampler activeBase [Except.error "sensor read failed", Except.ok ⟨0, 0, 0⟩] =
      Except.error "sensor read failed" := rfl

/-- C3 amended: on a failing read while active, no state is mutated (the
read precedes every assignment), but the failure propagates uncaught and
terminates the sampler loop instead of being logged and skipped. -/
theorem c3_read_failure (s : State) (e : String) (rs : List (Except String Reading))
    (hact : s.is_active = true) :
    samplerCycle s (Except.error e) = Except.error e ∧
    runSampler s (Except.error e :: rs) = Except.error e := by
  have h1 : samplerCycle s (Except.error e) = Except.error e := by
    simp [samplerCycle, hact]
  exact ⟨h1, by rw [runSampler, h1]⟩

/-- C3 witness: instantiated at the active baseline with one pending read. -/
theorem c3_read_failure_witness :
    samplerCycle activeBase (Except.error "boom") = Except.error "boom" ∧
    runSampler activeBase (Except.error "boom" :: [Except.ok ⟨1, 1, 1⟩]) =
      Except.error "boom" :=
  c3_read_failure activeBase "boom" [Except.ok ⟨1, 1, 1⟩] rfl

/-- C6: a sampler cycle with `is_active` false performs no sensor read
(even a read outcome that would raise is irrelevant) and changes no state:
the cycle returns the state unchanged and does not stage anything. -/
theorem c6_inactive_frame (s : State) (r : Except String Reading)
    (hin : s.is_active = false) :
    samplerCycle s r = Except.ok (s, false) := by
  simp [samplerCycle, hin]

/-- C6 witness: at the inactive baseline, even a raising read leaves the
state untouched because `accelerometer.get_values()` is never called. -/
theorem c6_inactive_frame_witness :
    samplerCycle baseState (Except.error "never read") = Except.ok (baseState, false) :=
  c6_inactive_frame baseState (Except.error "never read") rfl

/-- C7: while `config_done` is false the reconciler pass only sleeps in
the `while not config_done` loop: it consumes no staged outputs, publishes
nothing, and leaves every global (in particular `is_active`) unchanged, so
no "finished" determination can be produced. -/
theorem c7_config_gate (s : State) (h : s.config_done = false) :
    reconcilerTick s = (s, []) := by
  simp [reconcilerTick, h]

/-- C7 witness: at startup defaults (no config yet) with a staged command,
readings and notification, the tick still does nothing. -/
theorem c7_config_gate_witness :
    reconcilerTick
        { baseState with command := some "on", accelerometer_changes := some (1, 2, 3),
                         notification := some "hi" } =
      ({ baseState with command := some "on", accelerometer_changes := some (1, 2, 3),
                        notification := some "hi" }, []) :=
  c7_config_gate _ rfl

/-- C8 counterexample: because `last_readings` is updated to the current
raw values every cycle (line 58), the second sample's combined delta is
`|50-10|+|50-5|+|50-5| = 130 > 110`, not 20, so the counter resets; after
the third sample `idle_counter` is 1, not 2, and nothing is staged. -/
theorem c8_counterexample :
    scenarioS2.accelerometer_changes = some (40, 45, 45) ∧
    scenarioS2.idle_counter = 0 ∧
    scenarioS3.idle_counter = 1 ∧
    scenarioS3.command = none ∧
    scenarioS3.notification = none := by
  decide

/-- C8 amended: the actual trace of the §8 scenario under the code's
consecutive-delta rule: deltas `(50,50,50)`, `(40,45,45)`, `(8,4,4)` with
combined values 150, 130, 16 and `idle_counter` 0, 0, 1; the third sample
does not trigger the off command or the notification. -/
theorem c8_scenario_trace :
    scenarioS1.idle_counter = 0 ∧
    scenarioS1.accelerometer_changes = some (50, 50, 50) ∧
    scenarioS2.idle_counter = 0 ∧
    scenarioS2.accelerometer_changes = some (40, 45, 45) ∧
    scenarioS3.idle_counter = 1 ∧
    scenarioS3.accelerometer_changes = some (8, 4, 4) ∧
    cycleFired scenarioS2 (Except.ok ⟨2, 1, 1⟩) = false ∧
    scenarioS3.command = none ∧ scenarioS3.notification = none := by
  decide

/-- C1 counterexample: with `max_idle_periods = 1` and two consecutive
quiet cycles (delta 0 on each, so one idle episode with no intervening
spike, and the sampler never deactivates itself), the staging branch runs
on BOTH cycles — the `>=` test on line 65 re-stages the off command and
the notification every quiet cycle, not exactly once per episode. -/
theorem c1_counterexample :
    cycleFired c1State (Except.ok ⟨0, 0, 0⟩) = true ∧
    (cycleState c1State (Except.ok ⟨0, 0, 0⟩)).is_active = true ∧
    cycleFired (cycleState c1State (Except.ok ⟨0, 0, 0⟩)) (Except.ok ⟨0, 0, 0⟩) = true ∧
    (cycleState (cycleState c1State (Except.ok ⟨0, 0, 0⟩))
        (Except.ok ⟨0, 0, 0⟩)).idle_counter = 2 ∧
    (runSampler c1State [Except.ok ⟨0, 0, 0⟩, Except.ok ⟨0, 0, 0⟩]).toOption.map Prod.snd
      = some 2 := by
  decide

/-- C1 amended: staging is level-triggered, not edge-triggered: on every
active cycle with a successful read, the off command and completion
notification are staged exactly when the post-classification
`idle_counter` is `>= max_idle_periods` — hence they are re-staged on
every subsequent quiet cycle until deactivation takes effect. -/
theorem c1_level_trigger (s : State) (v : Reading) (hact : s.is_active = true) :
    (cycleFired s (Except.ok v) = true ↔
      ((cycleState s (Except.ok v)).idle_counter : Int) ≥ s.max_idle_periods) ∧
    (cycleFired s (Except.ok v) = true →
      (cycleState s (Except.ok v)).command = some "off" ∧
      (cycleState s (Except.ok v)).notification = some "We\x27re done!") := by
  obtain ⟨s1, b, heq⟩ : ∃ s1 b, samplerCycle s (Except.ok v) = Except.ok (s1, b) := by
    simp only [samplerCycle, hact, eq_self_iff_true, if_true]
    split <;> (try split) <;> exact ⟨_, _, rfl⟩
  simp only [cycleFired, cycleState, heq]
  simp only [samplerCycle, hact, eq_self_iff_true, if_true] at heq
  split at heq <;> try split at heq
  all_goals
    injection heq with h
    injection h with h1 h2
    subst h1
    subst h2
  all_goals constructor
  all_goals simp_all

/-- C1 witness: the amended theorem instantiated at `c1State` with a quiet
read. -/
theorem c1_level_trigger_witness :
    (cycleFired c1State (Except.ok ⟨0, 0, 0⟩) = true ↔
      ((cycleState c1State (Except.ok ⟨0, 0, 0⟩)).idle_counter : Int) ≥
        c1State.max_idle_periods) ∧
    (cycleFired c1State (Except.ok ⟨0, 0, 0⟩) = true →
      (cycleState c1State (Except.ok ⟨0, 0, 0⟩)).command = some "off" ∧
      (cycleState c1State (Except.ok ⟨0, 0, 0⟩)).notification = some "We\x27re done!") :=
  c1_level_trigger c1State ⟨0, 0, 0⟩ rfl

/-- C4 counterexample: an empty-string staged command is non-null, yet the
tick does nothing with it: `if command:` is false for `""` in Python, so
`is_active` is not derived, nothing is published, and the staged command
is NOT cleared. -/
theorem c4_counterexample :
    c4State.command = some "" ∧ reconcilerTick c4State = (c4State, []) := by
  decide

/-- C4 amended: for every reconciler tick (configuration received) whose
staged command is non-null AND non-empty: `is_active` is set to the result
of the case-insensitive comparison with `"on"`; when set active,
`idle_counter` is reset to 0 and staged readings are cleared; the raw
command string is published first, to the active-state channel with
retain; and the staged command is cleared. -/
theorem c4_command_drain (s : State) (c : String) (hcfg : s.config_done = true)
    (hc : s.command = some c) (hne : ¬c = "") :
    (reconcilerTick s).1.is_active = (strLower c == "on") ∧
    ((strLower c == "on") = true →
      (reconcilerTick s).1.idle_counter = 0 ∧
      (reconcilerTick s).1.accelerometer_changes = none) ∧
    (reconcilerTick s).2.head? = some ⟨ACTIVE_TOPIC, c, true⟩ ∧
    (reconcilerTick s).1.command = none := by
  rw [reconcilerTick_gated s hcfg]
  cases hon : (strLower c == "on") with
  | true =>
    have hd : drainCommand s =
        ({ s with is_active := true, idle_counter := 0,
                  accelerometer_changes := none, command := none },
          [⟨ACTIVE_TOPIC, c, true⟩]) := by
      simp [drainCommand, hc, hne, hon]
    rw [hd]
    refine ⟨?_, fun _ => ⟨?_, ?_⟩, ?_, ?_⟩
    · rw [(drainNotify_fields _).1, (drainReadings_fields _).1]
    · rw [(drainNotify_fields _).2.2.1, (drainReadings_fields _).2.2.1]
    · rw [(drainNotify_fields _).2.2.2]
      exact drainReadings_accel _
    · simp
    · rw [(drainNotify_fields _).2.1, (drainReadings_fields _).2.1]
  | false =>
    have hd : drainCommand s =
        ({ s with is_active := false, command := none }, [⟨ACTIVE_TOPIC, c, true⟩]) := by
      simp [drainCommand, hc, hne, hon]
    rw [hd]
    refine ⟨?_, ?_, ?_, ?_⟩
    · rw [(drainNotify_fields _).1, (drainReadings_fields _).1]
    · intro h
      exact Bool.noConfusion h
    · simp
    · rw [(drainNotify_fields _).2.1, (drainReadings_fields _).2.1]

/-- C4 witness: the amended theorem at the staged command `"ON"` (the §8
case-insensitivity scenario) with a stale counter and staged readings. -/
theorem c4_command_drain_witness :
    (reconcilerTick c4OnState).1.is_active = (strLower "ON" == "on") ∧
    ((strLower "ON" == "on") = true →
      (reconcilerTick c4OnState).1.idle_counter = 0 ∧
      (reconcilerTick c4OnState).1.accelerometer_changes = none) ∧
    (reconcilerTick c4OnState).2.head? = some ⟨ACTIVE_TOPIC, "ON", true⟩ ∧
    (reconcilerTick c4OnState).1.command = none :=
  c4_command_drain c4OnState "ON" rfl rfl (by decide)

/-- C5: a config message applies exactly the subset of the three fields
present, leaves absent fields at their current values, changes nothing on
parse failure (including the `config_done` flag), and sets `config_done`
after a successful application. -/
theorem c5_config_merge (s : State) (m : ConfigMsg) :
    handleConfigMessage s none = s ∧
    (m.sampleSecs = none → (handleConfigMessage s (some m)).sample_secs = s.sample_secs) ∧
    (m.maxIdlePeriods = none →
      (handleConfigMessage s (some m)).max_idle_periods = s.max_idle_periods) ∧
    (m.sensitivity = none → (handleConfigMessage s (some m)).sensitivity = s.sensitivity) ∧
    (∀ v, m.sampleSecs = some v → (handleConfigMessage s (some m)).sample_secs = v) ∧
    (∀ v, m.maxIdlePeriods = some v →
      (handleConfigMessage s (some m)).max_idle_periods = v) ∧
    (∀ v, m.sensitivity = some v → (handleConfigMessage s (some m)).sensitivity = v) ∧
    (handleConfigMessage s (some m)).config_done = true := by
  refine ⟨rfl, ?_, ?_, ?_, ?_, ?_, ?_, rfl⟩
  · intro h; simp [handleConfigMessage, h]
  · intro h; simp [handleConfigMessage, h]
  · intro h; simp [handleConfigMessage, h]
  · intro v h; simp [handleConfigMessage, h]
  · intro v h; simp [handleConfigMessage, h]
  · intro v h; simp [handleConfigMessage, h]

/-- C5 witness: the §8 config scenario `{"maxIdlePeriods": 3}` at the
startup defaults — only `max_idle_periods` changes. -/
theorem c5_config_merge_witness :
    handleConfigMessage baseState none = baseState ∧
    ((ConfigMsg.mk none (some 3) none).sampleSecs = none →
      (handleConfigMessage baseState (some ⟨none, some 3, none⟩)).sample_secs =
        baseState.sample_secs) ∧
    ((ConfigMsg.mk none (some 3) none).maxIdlePeriods = none →
      (handleConfigMessage baseState (some ⟨none, some 3, none⟩)).max_idle_periods =
        baseState.max_idle_periods) ∧
    ((ConfigMsg.mk none (some 3) none).sensitivity = none →
      (handleConfigMessage baseState (some ⟨none, some 3, none⟩)).sensitivity =
        baseState.sensitivity) ∧
    (∀ v, (ConfigMsg.mk none (some 3) none).sampleSecs = some v →
      (handleConfigMessage baseState (some ⟨none, some 3, none⟩)).sample_secs = v) ∧
    (∀ v, (ConfigMsg.mk none (some 3) none).maxIdlePeriods = some v →
      (handleConfigMessage baseState (some ⟨none, some 3, none⟩)).max_idle_periods = v) ∧
    (∀ v, (ConfigMsg.mk none (some 3) none).sensitivity = some v →
      (handleConfigMessage baseState (some ⟨none, some 3, none⟩)).sensitivity = v) ∧
    (handleConfigMessage baseState (some ⟨none, some 3, none⟩)).config_done = true :=
  c5_config_merge baseState ⟨none, some 3, none⟩

/-- C9: an empty-string staged command makes the tick a no-op for the
command field: `is_active` is unchanged, nothing is published to the
active-state channel, and the staged command survives uncleared. -/
theorem c9_empty_command (s : State) (hc : s.command = some "") :
    (reconcilerTick s).1.is_active = s.is_active ∧
    (reconcilerTick s).1.command = some "" ∧
    ∀ p ∈ (reconcilerTick s).2, ¬p.topic = ACTIVE_TOPIC := by
  cases hcfg : s.config_done with
  | false =>
    rw [reconcilerTick_awaiting s hcfg]
    exact ⟨rfl, hc, by intro p hp; cases hp⟩
  | true =>
    rw [reconcilerTick_gated s hcfg, drainCommand_falsy s hc]
    refine ⟨?_, ?_, ?_⟩
    · rw [(drainNotify_fields _).1, (drainReadings_fields _).1]
    · rw [(drainNotify_fields _).2.1, (drainReadings_fields _).2.1, hc]
    · intro p hp
      simp only [List.nil_append, List.mem_append] at hp
      rcases hp with hp | hp
      · rw [drainReadings_topic _ p hp]
        decide
      · rw [drainNotify_topic _ p hp]
        decide

/-- C9 witness: with staged readings and a staged notification alongside
the empty command, the tick publishes to the readings and notify channels
only, and keeps the empty command. -/
theorem c9_empty_command_witness :
    (reconcilerTick c9State).1.is_active = c9State.is_active ∧
    (reconcilerTick c9State).1.command = some "" ∧
    (∀ p ∈ (reconcilerTick c9State).2, ¬p.topic = ACTIVE_TOPIC) :=
  c9_empty_command c9State rfl

/-- C10: configuration values are applied verbatim with no range
validation — a non-positive `maxIdlePeriods` is stored as-is, and the
sampler then uses it as-is: since the counter is never negative, every
subsequent active cycle with a successful read immediately stages the off
command. -/
theorem c10_no_validation (s : State) (v : Int) (r : Reading)
    (hv : v ≤ 0) (hact : s.is_active = true) :
    (handleConfigMessage s (some ⟨none, some v, none⟩)).max_idle_periods = v ∧
    cycleFired (handleConfigMessage s (some ⟨none, some v, none⟩)) (Except.ok r) = true := by
  refine ⟨rfl, ?_⟩
  set s' := handleConfigMessage s (some ⟨none, some v, none⟩) with hs'
  have hact' : s'.is_active = true := hact
  have hmax : s'.max_idle_periods = v := rfl
  obtain ⟨s1, b, heq⟩ : ∃ s1 b, samplerCycle s' (Except.ok r) = Except.ok (s1, b) := by
    simp only [samplerCycle, hact', eq_self_iff_true, if_true]
    split <;> (try split) <;> exact ⟨_, _, rfl⟩
  simp only [cycleFired, heq]
  simp only [samplerCycle, hact', eq_self_iff_true, if_true] at heq
  split at heq <;> try split at heq
  all_goals
    injection heq with h
    injection h with h1 h2
  all_goals try exact h2.symm
  all_goals (exfalso; omega)

/-- C10 witness: `maxIdlePeriods = -3` is accepted verbatim at the active
baseline and the very next cycle stages the off command. -/
theorem c10_no_validation_witness :
    (handleConfigMessage activeBase (some ⟨none, some (-3), none⟩)).max_idle_periods = -3 ∧
    cycleFired (handleConfigMessage activeBase (some ⟨none, some (-3), none⟩))
      (Except.ok ⟨7, 7, 7⟩) = true :=
  c10_no_validation activeBase (-3) ⟨7, 7, 7⟩ (by decide) rfl

end LaundryIsDone
